import Mathlib

set_option maxHeartbeats 1000000

/-!
Verification development for the histopathai image-processing-service.

The Go sources are shallowly embedded: pure string manipulation is
translated to Lean functions over character lists, the error taxonomy
(pkg/errors) becomes an inductive error chain, and each orchestration
function becomes a Lean function over an explicit record of the outcomes
of its collaborator calls (filesystem stats, external tool runs, storage
puts, event publishes), returning the list of published events and the
returned error.
-/

namespace ImageProc

/-! ## String helpers mirroring the Go standard library -/

/-- Model of strings.TrimSpace: drop unicode whitespace from both ends. -/
def trimChars (cs : List Char) : List Char :=
  ((cs.dropWhile Char.isWhitespace).reverse.dropWhile Char.isWhitespace).reverse

/-- Model of strings.TrimSpace on strings. -/
def trimSpace (s : String) : String := String.mk (trimChars s.data)

/-- Last path component of a slash-separated path (character-list level). -/
def lastComponentChars (cs : List Char) : List Char :=
  cs.foldl (fun acc c => if c = '/' then [] else acc ++ [c]) []

/-- Model of filepath.Ext: suffix of the final path element beginning at its
final dot, empty when the final element has no dot. -/
def extChars (cs : List Char) : List Char :=
  let name := lastComponentChars cs
  let rev := name.reverse
  let pre := rev.takeWhile (fun c => c ≠ '.')
  if pre.length = rev.length then [] else '.' :: pre.reverse

/-- Model of filepath.Ext on strings. -/
def filepathExt (s : String) : String := String.mk (extChars s.data)

/-- Model of strings.ToLower (ASCII is all the code relies on). -/
def toLowerStr (s : String) : String := String.mk (s.data.map Char.toLower)

/-- Numeric value of a run of decimal digit characters. -/
def digitsVal (ds : List Char) : Nat :=
  ds.foldl (fun a c => a * 10 + (c.toNat - 48)) 0

/-- Model of fmt.Sscanf with a single %d verb into an int variable that was
zero-initialised: leading whitespace is skipped, an optional sign and a run
of digits is read; when no digit can be read the variable keeps its zero
value (the code ignores the Sscanf error). -/
def sscanfInt (s : String) : Int :=
  let cs := s.data.dropWhile Char.isWhitespace
  match cs with
  | '-' :: rest =>
      let ds := rest.takeWhile Char.isDigit
      if ds.isEmpty then 0 else -(digitsVal ds : Int)
  | '+' :: rest =>
      let ds := rest.takeWhile Char.isDigit
      if ds.isEmpty then 0 else (digitsVal ds : Int)
  | _ =>
      let ds := cs.takeWhile Char.isDigit
      if ds.isEmpty then 0 else (digitsVal ds : Int)

/-- Model of filepath.Join for the two-argument uses in the orchestrators
(path cleaning is irrelevant to every claim, only emptiness matters). -/
def joinPath (a b : String) : String :=
  if a = "" then b else if b = "" then a else a ++ "/" ++ b

/-! ## pkg/errors: the error taxonomy (src/unnamed/part_003) -/

/-- ErrorType is a string in the source (type ErrorType string). -/
abbrev ErrorType := String

def ErrorTypeValidation : ErrorType := "validation_error"
def ErrorTypeNotFound : ErrorType := "not_found"
def ErrorTypeAlreadyExists : ErrorType := "already_exists"
def ErrorTypeStorage : ErrorType := "storage_error"
def ErrorTypeMessaging : ErrorType := "messaging_error"
def ErrorTypeExternal : ErrorType := "external_service_error"
def ErrorTypeProcessing : ErrorType := "processing_error"
def ErrorTypeTimeout : ErrorType := "timeout_error"
def ErrorTypeCancellation : ErrorType := "cancellation_error"
def ErrorTypeInternal : ErrorType := "internal_error"
def ErrorTypeConfiguration : ErrorType := "configuration_error"

/-- A Go error value as the service sees it: either an AppError (Type,
Message, wrapped Err, Context key/values) or a plain error produced by
fmt.Errorf / the standard library, possibly wrapping another error. -/
inductive GoError where
  | app (ty : ErrorType) (msg : String) (cause : Option GoError) (ctx : List (String × String))
  | generic (msg : String) (cause : Option GoError)

/-- The data of one AppError node. -/
structure AppData where
  ty : ErrorType
  msg : String
  cause : Option GoError
  ctx : List (String × String)

/-- Model of errors.As(err, &appErr): walk the Unwrap chain and return the
first AppError node found, if any. -/
def findAppError : GoError → Option AppData
  | .app ty msg c ctx => some ⟨ty, msg, c, ctx⟩
  | .generic _ none => none
  | .generic _ (some e) => findAppError e

/-- The error kind that errors.As / Is observe for a Go error. -/
def kindOf (e : GoError) : Option ErrorType := (findAppError e).map AppData.ty

/-- Model of (*AppError).Error(): bracketed type, message, wrapped cause. -/
def errString : GoError → String
  | .app ty msg none _ => "[" ++ ty ++ "] " ++ msg
  | .app ty msg (some c) _ => "[" ++ ty ++ "] " ++ msg ++ ": " ++ errString c
  | .generic msg _ => msg

/-- Model of errors.New: a fresh AppError with no cause and no context. -/
def NewAppError (errType : ErrorType) (message : String) : GoError :=
  .app errType message none []

/-- Model of (*AppError).WithContext: append one key/value pair (no effect
on non-AppError values, which never receive the call in the source). -/
def withCtx (e : GoError) (k v : String) : GoError :=
  match e with
  | .app ty m c ctx => .app ty m c (ctx ++ [(k, v)])
  | .generic m c => .generic m c

/-- Core of errors.Wrap on a non-nil argument: a new AppError with the
caller-supplied type; when the argument chain already holds an AppError the
new node wraps that AppError and copies its context, otherwise it wraps the
argument itself. -/
def wrapErr (e : GoError) (errType : ErrorType) (message : String) : GoError :=
  match findAppError e with
  | some a => .app errType message (some (.app a.ty a.msg a.cause a.ctx)) a.ctx
  | none => .app errType message (some e) []

/-- Model of errors.Wrap including its nil short-circuit. -/
def Wrap (err : Option GoError) (errType : ErrorType) (message : String) : Option GoError :=
  err.map (fun e => wrapErr e errType message)

/-- Model of errors.IsNonRetryable: find the first AppError in the chain
(false when there is none) and switch on its type; the six domain/system
kinds answer true, the four infrastructure kinds answer false, and the
default case answers false. -/
def IsNonRetryable (err : GoError) : Bool :=
  match findAppError err with
  | none => false
  | some a =>
    if a.ty == ErrorTypeValidation || a.ty == ErrorTypeNotFound
        || a.ty == ErrorTypeAlreadyExists || a.ty == ErrorTypeProcessing
        || a.ty == ErrorTypeConfiguration || a.ty == ErrorTypeInternal then
      true
    else if a.ty == ErrorTypeStorage || a.ty == ErrorTypeMessaging
        || a.ty == ErrorTypeExternal || a.ty == ErrorTypeTimeout then
      false
    else
      false

/-- Common error constructors from the source. -/
def NewValidationError (m : String) : GoError := NewAppError ErrorTypeValidation m

def NewNotFoundError (resource : String) : GoError :=
  NewAppError ErrorTypeNotFound (resource ++ " not found")

def NewStorageError (m : String) : GoError := NewAppError ErrorTypeStorage m

def NewProcessingError (m : String) : GoError := NewAppError ErrorTypeProcessing m

def NewConfigurationError (m : String) : GoError := NewAppError ErrorTypeConfiguration m

/-- Spec-side reading of the retryability table: the kinds the spec lists as
non-retryable, as a predicate on the kind alone. -/
def specNonRetryableKind (ty : ErrorType) : Bool :=
  ty == ErrorTypeValidation || ty == ErrorTypeNotFound || ty == ErrorTypeAlreadyExists
    || ty == ErrorTypeProcessing || ty == ErrorTypeConfiguration || ty == ErrorTypeInternal

/-! ## CommandRunner (internal/infrastructure/processors/base.go) -/

/-- CommandResult as captured by BaseProcessor.createResult. -/
structure CommandResult where
  stdout : String
  stderr : String
  exitCode : Int

/-- Outcome of ctx.Err() when the command finishes. -/
inductive CtxErr where
  | clear
  | deadlineExceeded
  | canceled
deriving DecidableEq

/-- Context pairs every categorisation branch attaches. -/
def cmdCtx (binaryName : String) (result : CommandResult) (e : GoError) : GoError :=
  withCtx (withCtx (withCtx e "binary" binaryName)
    "exit_code" (toString result.exitCode)) "stderr" result.stderr

/-- Model of BaseProcessor.categorizeCommandError: switch on the exit code.
126/127 build fresh Configuration errors; 137 (killed) and 143 (terminated)
wrap the run error as a Processing error; 1, 2 and every unknown code also
wrap as a Processing error. -/
def categorizeCommandError (binaryName : String) (result : CommandResult)
    (err : GoError) : GoError :=
  let exitCode := result.exitCode
  if exitCode = 126 then
    cmdCtx binaryName result (NewConfigurationError "permission denied or command not executable")
  else if exitCode = 127 then
    cmdCtx binaryName result (NewConfigurationError "command not found")
  else if exitCode = 137 then
    cmdCtx binaryName result
      (wrapErr err ErrorTypeProcessing "command was killed, possibly due to resource limits")
  else if exitCode = 143 then
    cmdCtx binaryName result (wrapErr err ErrorTypeProcessing "command was terminated")
  else if exitCode = 1 ∨ exitCode = 2 then
    cmdCtx binaryName result (wrapErr err ErrorTypeProcessing "command execution failed")
  else
    cmdCtx binaryName result
      (wrapErr err ErrorTypeProcessing ("command failed with exit code " ++ toString exitCode))

/-- Model of BaseProcessor.handleCommandResult: a deadline-exceeded context
yields a Timeout wrap of the run error, a cancelled context yields a fresh
Cancellation error, otherwise a non-nil run error is categorised by exit
code and a nil run error is success. -/
def handleCommandResult (binaryName : String) (ctxErr : CtxErr)
    (result : CommandResult) (runErr : Option GoError) (timeoutMinutes : Int) :
    CommandResult × Option GoError :=
  if ctxErr = .deadlineExceeded then
    (result, (Wrap runErr ErrorTypeTimeout
        ("command timed out after " ++ toString timeoutMinutes ++ " minutes")).map
      (fun e => cmdCtx binaryName result e))
  else if ctxErr = .canceled then
    (result, some (withCtx (withCtx (NewAppError ErrorTypeCancellation
        "command execution canceled") "binary" binaryName)
      "exit_code" (toString result.exitCode)))
  else
    match runErr with
    | some e => (result, some (categorizeCommandError binaryName result e))
    | none => (result, none)

/-! ## VipsProcessor (src/unnamed/part_026) error wrapping -/

/-- Model of the error wrap on VipsProcessor.CreateDZI's Execute failure:
WrapProcessingError with the call-site context. -/
def createDZIWrapError (inputFilePath outputDir : String) (tileSize : Int)
    (layout : String) (err : GoError) : GoError :=
  withCtx (withCtx (withCtx (withCtx
    (wrapErr err ErrorTypeProcessing "failed to create DZI tiles")
      "input_file" inputFilePath)
      "output_dir" outputDir)
      "tile_size" (toString tileSize))
      "layout" layout

/-! ## Domain model (internal/domain/model) -/

/-- Model of model.NewFile's validation: empty (after trimming) filename or
directory is rejected, and the directory must exist on disk; the File value
itself is irrelevant to the claims, so success carries Unit. -/
def NewFile (filename dir : String) (dirExists : Bool) : Except GoError Unit :=
  if trimSpace filename = "" then .error (.generic "filename cannot be empty" none)
  else if trimSpace dir = "" then .error (.generic "directory cannot be empty" none)
  else if ¬ dirExists then
    .error (.generic ("directory does not exist: " ++ dir) none)
  else .ok ()

/-! ## JobOrchestrator, part_020 variant (src/unnamed/part_020) -/

structure JobInput where
  imageID : String
  originPath : String
  processingVersion : String

/-- The ImageProcessCompleteEvent fields the claims observe. -/
structure ImageProcessCompleteEvent where
  imageID : String
  processingVersion : String
  success : Bool
  failureReason : String
  retryable : Bool
deriving DecidableEq, Repr

/-- Outcomes of the collaborator calls made by the part_020 ProcessJob, in
call order. The orchestrator itself decides only branching and event
construction; each field is the result the named callee returned. -/
structure OrchOracleV020 where
  newFile : Except GoError Unit
  processFile : Except GoError Unit
  prepareContents : Except GoError Unit
  upload : Option GoError
  removeWorkspaceOk : Bool
  envIsProduction : Bool

/-- Model of the part_020 JobOrchestrator.ProcessJob: each failure exit
publishes one Failed event (retryable computed as the negation of
IsNonRetryable, except the prepareContents exit which hardcodes false) and
returns the error; the success exit publishes one Completed event, then
cleans up outside production. Returns the list of published events and the
returned error. Note the source calls model.NewFile with an empty Dir
argument; the oracle field carries whatever that call returned. -/
def ProcessJob_v020 (input : JobInput) (o : OrchOracleV020) :
    List ImageProcessCompleteEvent × Option GoError :=
  match o.newFile with
  | .error err =>
      ([{ imageID := input.imageID, processingVersion := input.processingVersion,
          success := false, failureReason := errString err,
          retryable := !IsNonRetryable err }], some err)
  | .ok _ =>
    match o.processFile with
    | .error err =>
        ([{ imageID := input.imageID, processingVersion := input.processingVersion,
            success := false, failureReason := errString err,
            retryable := !IsNonRetryable err }], some err)
    | .ok _ =>
      match o.prepareContents with
      | .error err =>
          ([{ imageID := input.imageID, processingVersion := input.processingVersion,
              success := false,
              failureReason := "failed to prepare contents: " ++ errString err,
              retryable := false }], some err)
      | .ok _ =>
        match o.upload with
        | some err =>
            ([{ imageID := input.imageID, processingVersion := input.processingVersion,
                success := false, failureReason := errString err,
                retryable := !IsNonRetryable err }], some err)
        | none =>
            ([{ imageID := input.imageID, processingVersion := input.processingVersion,
                success := true, failureReason := "", retryable := false }], none)

/-! ## JobOrchestrator, FileExists-checking variant
(internal/service/job_orchestrator.go, first variant) -/

/-- The ImageProcessingResultEvent fields the claims observe. -/
structure ImageProcessingResultEvent where
  imageID : String
  success : Bool
  failureReason : String
  retryable : Bool
deriving DecidableEq, Repr

/-- Collaborator-call outcomes for the FileExists-checking ProcessJob. -/
structure OrchOracleV1 where
  inputExists : Bool
  newFile : Except GoError Unit
  processFile : Except GoError Unit
  upload : Option GoError
  removeWorkspaceOk : Bool

/-- Model of the first job_orchestrator.go ProcessJob variant: a failing
FileExists pre-check publishes a Failed event with retryable hardcoded to
false and returns the NotFound error; later failures publish with retryable
computed from IsNonRetryable; the success exit removes the workspace and
publishes one success event. -/
def ProcessJob_v1 (input : JobInput) (inputPath : String) (o : OrchOracleV1) :
    List ImageProcessingResultEvent × Option GoError :=
  if ¬ o.inputExists then
    let err := withCtx (withCtx (NewNotFoundError "input file") "path" inputPath)
      "imageID" input.imageID
    ([{ imageID := input.imageID, success := false,
        failureReason := errString err, retryable := false }], some err)
  else
    match o.newFile with
    | .error err =>
        ([{ imageID := input.imageID, success := false,
            failureReason := errString err,
            retryable := !IsNonRetryable err }], some err)
    | .ok _ =>
      match o.processFile with
      | .error err =>
          ([{ imageID := input.imageID, success := false,
              failureReason := errString err,
              retryable := !IsNonRetryable err }], some err)
      | .ok _ =>
        match o.upload with
        | some err =>
            ([{ imageID := input.imageID, success := false,
                failureReason := errString err,
                retryable := !IsNonRetryable err }], some err)
        | none =>
            ([{ imageID := input.imageID, success := true,
                failureReason := "", retryable := false }], none)

/-! ## ImageProcessingService.ProcessFile, part_017 variant
(src/unnamed/part_017) -/

/-- Collaborator-call outcomes for the part_017 ProcessFile, in call order. -/
structure PipelineOracleV017 where
  newWorkspaceOk : Bool
  getImageInfo : Option GoError
  convertDNG : Option GoError
  thumbnail : Option GoError
  dzi : Option GoError
  buildIndexMap : Option GoError
  extractDzi : Option GoError
  renameTiles : Option String
  removeTiffOk : Bool

/-- Model of the part_017 ImageProcessingService.ProcessFile: workspace
creation, inspection, optional DNG conversion, thumbnail, DZI, then zip
indexing or tiles renaming by container; every step failure including the
thumbnail step aborts with that error; only the final TIFF removal is
non-fatal. -/
def ProcessFile_v017 (fileID filename container : String)
    (o : PipelineOracleV017) : Except GoError Unit :=
  if ¬ o.newWorkspaceOk then
    .error (withCtx (NewStorageError "failed to create workspace") "fileID" fileID)
  else
    let wasDNG := toLowerStr (filepathExt filename) == ".dng"
    match o.getImageInfo with
    | some err => .error err
    | none =>
      match (if wasDNG then o.convertDNG else none) with
      | some err => .error err
      | none =>
        match o.thumbnail with
        | some err => .error err
        | none =>
          match o.dzi with
          | some err => .error err
          | none =>
            if container == "zip" then
              match o.buildIndexMap with
              | some err => .error err
              | none =>
                match o.extractDzi with
                | some err => .error err
                | none => .ok ()
            else
              match o.renameTiles with
              | some msg =>
                  .error (withCtx (withCtx (wrapErr (.generic msg none)
                    ErrorTypeStorage "failed to rename tiles directory")
                    "old" "image_files") "new" "tiles")
              | none => .ok ()

/-! ## ImageHandlerService.processImage
(internal/application/handlers/image_handler_service.go) -/

/-- Collaborator-call outcomes for the handler's processImage, in call
order. The thumbnail-related steps (DNG conversion for the thumbnail
source, thumbnail extraction, thumbnail copy) are the warn-only steps. -/
structure HandlerOracle where
  getImageInfo : Except GoError String
  formatSupported : Bool
  mkdirTempOk : Bool
  dzi : Option GoError
  convertDNGForThumb : Option GoError
  extractThumbnail : Option GoError
  mkdirOutOk : Bool
  copyDzi : Option String
  copyFilesDir : Option String
  thumbnailFileExists : Bool
  copyThumbnail : Option String
  publishCompleted : Option GoError

/-- Result of one processImage run: whether the completion event was
published, whether a thumbnail artifact reached the output directory, and
the returned error. -/
structure HandlerRun where
  publishedCompleted : Bool
  thumbnailCopied : Bool
  err : Option GoError

/-- Model of ImageHandlerService.processImage: inspection, format check,
temp dir, DZI processing and the output copies are fatal; the DNG thumbnail
conversion, the thumbnail extraction and the thumbnail copy only log on
failure and never change the control flow; finally exactly one completion
event is published (fatal if publishing fails). -/
def processImage (o : HandlerOracle) : HandlerRun :=
  match o.getImageInfo with
  | .error e =>
      ⟨false, false, some (wrapErr e ErrorTypeProcessing "failed to get image info")⟩
  | .ok format =>
    if ¬ o.formatSupported then
      ⟨false, false, some (withCtx (NewValidationError "unsupported image format")
        "format" format)⟩
    else if ¬ o.mkdirTempOk then
      ⟨false, false, some (wrapErr (.generic "mkdir failed" none)
        ErrorTypeProcessing "failed to create local temp directory")⟩
    else
      match o.dzi with
      | some e =>
          ⟨false, false, some (wrapErr e ErrorTypeProcessing "failed to process DZI")⟩
      | none =>
        if ¬ o.mkdirOutOk then
          ⟨false, false, some (wrapErr (.generic "mkdir failed" none)
            ErrorTypeProcessing "failed to create final GCS output directory")⟩
        else
          match o.copyDzi with
          | some msg =>
              ⟨false, false, some (wrapErr (.generic msg none)
                ErrorTypeProcessing "failed to copy .dzi file")⟩
          | none =>
            match o.copyFilesDir with
            | some msg =>
                ⟨false, false, some (wrapErr (.generic msg none)
                  ErrorTypeProcessing "failed to copy _files directory")⟩
            | none =>
              let thumbCopied :=
                o.thumbnailFileExists && o.copyThumbnail.isNone
              match o.publishCompleted with
              | some e =>
                  ⟨false, thumbCopied, some (wrapErr e ErrorTypeMessaging
                    "failed to publish completion event")⟩
              | none => ⟨true, thumbCopied, none⟩

/-! ## ImageInfoProcessor (internal/infrastructure/processors/dcraw.go) -/

/-- Inspection result: pixel dimensions as parsed Go ints plus byte size. -/
structure ImageInfo where
  width : Int
  height : Int
  size : Int
deriving DecidableEq, Repr

/-- External observations one GetImageInfo run makes: the stat result and
the stdout of each tool run it may perform (an error value models a failed
cmd.Run). -/
structure InfoOracle where
  statSize : Except String Int
  exifRun : Except String String
  openslideRun : Except String String
  vipsWidthRun : Except String String
  vipsHeightRun : Except String String

/-- First piece in the list whose whitespace-stripped front is a nonempty
digit run; zero when none is. -/
def firstDigitsAfter : List String → Nat
  | [] => 0
  | p :: ps =>
      let t := p.data.dropWhile Char.isWhitespace
      let ds := t.takeWhile Char.isDigit
      if ds.isEmpty then firstDigitsAfter ps else digitsVal ds

/-- Model of the regexp lookup key + optional whitespace + captured digit
run used on the OpenSlide properties output; an absent match leaves the Go
variable at zero. -/
def extractOpenSlideNat (output key : String) : Nat :=
  match output.splitOn key with
  | [] => 0
  | _ :: rest => firstDigitsAfter rest

/-- Model of getDimensionsWithExifTool: run exiftool, split stdout into
lines, Sscanf the first two, reject zero dimensions as a Processing error. -/
def getDimensionsWithExifTool (inputFilePath : String) (size : Int)
    (run : Except String String) : Except GoError ImageInfo :=
  match run with
  | .error msg =>
      .error (withCtx (wrapErr (.generic msg none) ErrorTypeProcessing
        "failed to get dimensions with ExifTool") "file" inputFilePath)
  | .ok out =>
      let output := trimSpace out
      let lines := output.splitOn "\n"
      if lines.length < 2 then
        .error (withCtx (withCtx (NewProcessingError "unexpected output from exiftool")
          "file" inputFilePath) "output" output)
      else
        let width := sscanfInt (trimSpace (lines.getD 0 ""))
        let height := sscanfInt (trimSpace (lines.getD 1 ""))
        if width = 0 ∨ height = 0 then
          .error (withCtx (NewProcessingError "invalid dimensions detected from exiftool")
            "file" inputFilePath)
        else
          .ok ⟨width, height, size⟩

/-- Model of getDimensionsWithOpenSlide: run the properties tool, pull the
level-zero width/height via the regexps, reject zero as Processing. -/
def getDimensionsWithOpenSlide (inputFilePath : String) (size : Int)
    (run : Except String String) : Except GoError ImageInfo :=
  match run with
  | .error msg =>
      .error (withCtx (wrapErr (.generic msg none) ErrorTypeProcessing
        "failed to get dimensions with OpenSlide") "file" inputFilePath)
  | .ok out =>
      let width : Int := extractOpenSlideNat out "openslide.level[0].width:"
      let height : Int := extractOpenSlideNat out "openslide.level[0].height:"
      if width = 0 ∨ height = 0 then
        .error (withCtx (NewProcessingError "invalid dimensions detected from OpenSlide")
          "file" inputFilePath)
      else
        .ok ⟨width, height, size⟩

/-- Model of getDimensionsWithVips: one vipsheader run per field, Sscanf the
trimmed stdout of each, reject zero as Processing. -/
def getDimensionsWithVips (inputFilePath : String) (size : Int)
    (widthRun heightRun : Except String String) : Except GoError ImageInfo :=
  match widthRun with
  | .error msg =>
      .error (withCtx (wrapErr (.generic msg none) ErrorTypeProcessing
        "failed to get width with vipsheader") "file" inputFilePath)
  | .ok wOut =>
    match heightRun with
    | .error msg =>
        .error (withCtx (wrapErr (.generic msg none) ErrorTypeProcessing
          "failed to get height with vipsheader") "file" inputFilePath)
    | .ok hOut =>
        let width := sscanfInt (trimSpace wOut)
        let height := sscanfInt (trimSpace hOut)
        if width = 0 ∨ height = 0 then
          .error (withCtx (NewProcessingError "invalid dimensions detected from vipsheader")
            "file" inputFilePath)
        else
          .ok ⟨width, height, size⟩

/-- Model of ImageInfoProcessor.GetImageInfo: stat the file (Storage error
on failure), then dispatch on the lowercased extension: camera RAW goes to
ExifTool, whole-slide formats go to OpenSlide, everything else to
vipsheader. -/
def GetImageInfo (inputFilePath : String) (o : InfoOracle) :
    Except GoError ImageInfo :=
  match o.statSize with
  | .error msg =>
      .error (withCtx (wrapErr (.generic msg none) ErrorTypeStorage
        "failed to stat file") "file" inputFilePath)
  | .ok size =>
      let ext := toLowerStr (filepathExt inputFilePath)
      if ext == ".dng" then
        getDimensionsWithExifTool inputFilePath size o.exifRun
      else if ext == ".ndpi" || ext == ".svs" || ext == ".scn" || ext == ".bif"
          || ext == ".vms" || ext == ".vmu" then
        getDimensionsWithOpenSlide inputFilePath size o.openslideRun
      else
        getDimensionsWithVips inputFilePath size o.vipsWidthRun o.vipsHeightRun

/-! ## Storage backends (internal/infrastructure/storage) -/

/-- A local directory tree as filepath.Walk traverses it. -/
inductive FsEntry where
  | file (name : String) (size : Nat)
  | dir (name : String) (children : List FsEntry)

/-- Relative-key extension used by the walks. -/
def addPre (pre name : String) : String :=
  if pre = "" then name else pre ++ "/" ++ name

mutual

/-- Regular files under one entry, with their walk-relative keys, in walk
order (BaseStorage.collectFiles over internal/infrastructure/storage). -/
def walkFiles (pre : String) : FsEntry → List (String × Nat)
  | .file n s => [(addPre pre n, s)]
  | .dir n cs => walkFilesList (addPre pre n) cs

def walkFilesList (pre : String) : List FsEntry → List (String × Nat)
  | [] => []
  | e :: rest => walkFiles pre e ++ walkFilesList pre rest

end

/-- Model of BaseStorage.collectFiles: walk the source directory collecting
every regular file with its path relative to the source root (the root
directory entry itself is not regular and is skipped). -/
def collectFiles : FsEntry → List (String × Nat)
  | .file _ s => [(".", s)]
  | .dir _ cs => walkFilesList "" cs

/-- Sequential core of the GCS upload fan-out: attempt each file in order,
stopping at the first failure (errgroup cancels outstanding work on first
error). Returns the attempted keys and the first error. -/
def gcsUploadLoop (attempt : String → Option GoError) :
    List (String × Nat) → List String × Option GoError
  | [] => ([], none)
  | (p, _) :: rest =>
    match attempt p with
    | some e => ([p], some e)
    | none =>
        let r := gcsUploadLoop attempt rest
        (p :: r.1, r.2)

/-- Model of GCSStorage.UploadDirectory: collect the files, fail with a
Storage error when the list is empty before attempting any upload,
otherwise upload with first-error-wins and wrap a failure as a Storage
error. Returns the attempted object keys and the overall error. -/
def UploadDirectory_gcs (sourceDir : String) (tree : FsEntry)
    (attempt : String → Option GoError) : List String × Option GoError :=
  let files := collectFiles tree
  if files.length = 0 then
    ([], some (withCtx (NewStorageError "source directory is empty")
      "sourceDir" sourceDir))
  else
    let r := gcsUploadLoop attempt files
    match r.2 with
    | some e =>
        (r.1, some (withCtx (wrapErr e ErrorTypeStorage
          "failed to upload directory to GCS") "source" sourceDir))
    | none => (r.1, none)

mutual

/-- One step of the MountStorage.PutDirectory walk: a directory entry only
creates the destination directory, a file entry copies the file (failure is
wrapped as a Storage error). Returns copied keys and the first error. -/
def mountWalk (copyFails : String → Option String) (pre : String) :
    FsEntry → List String × Option GoError
  | .file n _ =>
    match copyFails (addPre pre n) with
    | some msg =>
        ([], some (withCtx (wrapErr (.generic msg none) ErrorTypeStorage
          "failed to copy file") "local_path" (addPre pre n)))
    | none => ([addPre pre n], none)
  | .dir n cs => mountWalkList copyFails (addPre pre n) cs

def mountWalkList (copyFails : String → Option String) (pre : String) :
    List FsEntry → List String × Option GoError
  | [] => ([], none)
  | e :: rest =>
    match mountWalk copyFails pre e with
    | (c, some err) => (c, some err)
    | (c, none) =>
        let r := mountWalkList copyFails pre rest
        (c ++ r.1, r.2)

end

/-- Model of MountStorage.PutDirectory: filepath.Walk over the local
directory; the root visit only creates the remote directory, so an empty
source directory completes the walk with no copies and no error. -/
def PutDirectory_mount (tree : FsEntry) (copyFails : String → Option String) :
    List String × Option GoError :=
  match tree with
  | .file n s => mountWalk copyFails "" (.file n s)
  | .dir _ cs => mountWalkList copyFails "" cs

/-! ## ZipIndexProcessor (internal/infrastructure/processors/zip.go) -/

/-- One archive member as the zip reader presents it in file order. -/
structure ZipMember where
  name : String
  headerOffset : Nat
  nameLen : Nat
  extraLen : Nat
  compressedSize : Nat
  uncompressedSize : Nat
  method : Nat
  dataOffsetFails : Bool
deriving DecidableEq, Repr

/-- The value zip.File.DataOffset computes when it succeeds: the local
header offset plus the 30-byte fixed header plus name and extra fields. -/
def dataOffsetVal (m : ZipMember) : Nat :=
  m.headerOffset + 30 + m.nameLen + m.extraLen

/-- One IndexMap entry (ZipEntryIndex). -/
structure ZipEntryIndex where
  name : String
  offset : Nat
  compressedSize : Nat
  uncompressedSize : Nat
  method : Nat
deriving DecidableEq, Repr

/-- The persisted index (ZipIndexMap). -/
structure ZipIndexMap where
  version : Nat
  zipFile : String
  entries : List ZipEntryIndex
deriving DecidableEq, Repr

/-- The member loop of BuildIndexMap: one entry per member in file order,
aborting with a Processing wrap when a data offset cannot be determined. -/
def buildEntries : List ZipMember → Except GoError (List ZipEntryIndex)
  | [] => .ok []
  | m :: rest =>
    if m.dataOffsetFails then
      .error (withCtx (wrapErr (.generic "zip: data offset unavailable" none)
        ErrorTypeProcessing "failed to get data offset") "file" m.name)
    else
      match buildEntries rest with
      | .error e => .error e
      | .ok es =>
          .ok (⟨m.name, dataOffsetVal m, m.compressedSize, m.uncompressedSize,
            m.method⟩ :: es)

/-- Filesystem outcomes of the write half of BuildIndexMap. -/
structure ZipWriteOracle where
  openOk : Bool
  mkdirOk : Bool
  createOk : Bool
  encodeOk : Bool

/-- Model of ZipIndexProcessor.BuildIndexMap: open the archive (Storage
error on failure), iterate the members computing each data offset
(Processing error when one is unavailable), then create destDir and write
IndexMap.json (Storage/Processing errors). Success returns the index that
was written. -/
def BuildIndexMap (zipFileName : String) (members : List ZipMember)
    (o : ZipWriteOracle) : Except GoError ZipIndexMap :=
  if ¬ o.openOk then
    .error (wrapErr (.generic "open failed" none) ErrorTypeStorage "failed to open zip")
  else
    match buildEntries members with
    | .error e => .error e
    | .ok es =>
      if ¬ o.mkdirOk then
        .error (wrapErr (.generic "mkdir failed" none) ErrorTypeStorage
          "failed to create dest dir")
      else if ¬ o.createOk then
        .error (wrapErr (.generic "create failed" none) ErrorTypeStorage
          "failed to create index file")
      else if ¬ o.encodeOk then
        .error (wrapErr (.generic "encode failed" none) ErrorTypeProcessing
          "failed to write index map")
      else
        .ok ⟨1, zipFileName, es⟩

/-- A sequentially laid out (valid) archive: in file order, each member's
compressed data ends at or before the next member's local header. -/
def SequentialLayout (members : List ZipMember) : Prop :=
  List.Chain' (fun a b => dataOffsetVal a + a.compressedSize ≤ b.headerOffset) members

/-! ## DcrawProcessor.DNGToTIFF and the part_018 service wrapper -/

/-- Model of DcrawProcessor.DNGToTIFF: input validation and output-dir
creation return a nil CommandResult with the error; after the tool runs the
CommandResult is returned alongside any wrapped error or output
verification failure. The tool run outcome and filesystem facts are
parameters. -/
def DNGToTIFF (inputFilePath outputFilePath : String) (timeoutMinutes : Int)
    (inputExists : Bool) (mkdirOk : Bool)
    (execResult : CommandResult × Option GoError) (outputFileSize : Option Nat) :
    Option CommandResult × Option GoError :=
  if ¬ inputExists then
    (none, some (withCtx (NewValidationError "input file does not exist")
      "input_file" inputFilePath))
  else if ¬ (filepathExt inputFilePath == ".dng" || filepathExt inputFilePath == ".DNG") then
    (none, some (withCtx (withCtx (NewValidationError "input file must be a DNG file")
      "input_file" inputFilePath) "extension" (filepathExt inputFilePath)))
  else if ¬ (filepathExt outputFilePath == ".tif" || filepathExt outputFilePath == ".tiff"
      || filepathExt outputFilePath == ".TIF" || filepathExt outputFilePath == ".TIFF") then
    (none, some (withCtx (withCtx (NewValidationError
      "output file must have .tif or .tiff extension")
      "output_file" outputFilePath) "extension" (filepathExt outputFilePath)))
  else if timeoutMinutes ≤ 0 then
    (none, some (withCtx (NewValidationError "timeout must be positive")
      "timeout_minutes" (toString timeoutMinutes)))
  else if ¬ mkdirOk then
    (none, some (wrapErr (.generic "mkdir failed" none) ErrorTypeStorage
      "failed to create output directory"))
  else
    let result := execResult.1
    match execResult.2 with
    | some e =>
        (some result, some (withCtx (withCtx (wrapErr e ErrorTypeProcessing
          "failed to convert DNG to TIFF") "input_file" inputFilePath)
          "output_file" outputFilePath))
    | none =>
      match outputFileSize with
      | none =>
          (some result, some (withCtx (NewProcessingError "output file was not created")
            "output_file" outputFilePath))
      | some 0 =>
          (some result, some (withCtx (NewProcessingError "output file is empty")
            "output_file" outputFilePath))
      | some _ => (some result, none)

/-- How one Go function call can end: normal return of a value or error, or
a runtime panic. -/
inductive GoOutcome where
  | ok
  | errOut (e : GoError)
  | panics

/-- Model of the part_018 ImageProcessingService.ConvertDNGToTIFF: on a
DNGToTIFF failure the logging statement reads result.Stdout and
result.Stderr without a nil guard, so a nil CommandResult makes the call
panic instead of returning the error. -/
def ConvertDNGToTIFF_v018 (inputFilePath outputFilePath : String)
    (timeoutMinutes : Int) (inputExists mkdirOk : Bool)
    (execResult : CommandResult × Option GoError) (outputFileSize : Option Nat) :
    GoOutcome :=
  match DNGToTIFF inputFilePath outputFilePath timeoutMinutes inputExists mkdirOk
      execResult outputFileSize with
  | (none, some _) => .panics
  | (some _, some e) => .errOut e
  | (_, none) => .ok

end ImageProc

namespace ImageProc

/-! ## Helper lemmas shared by the claim theorems -/

/-- Helper: a successful ExifTool dimension extraction never carries a zero
width or height. -/
theorem exifTool_ok_nonzero (p : String) (s : Int) (r : Except String String)
    (info : ImageInfo) (h : getDimensionsWithExifTool p s r = .ok info) :
    info.width ≠ 0 ∧ info.height ≠ 0 := by
  unfold getDimensionsWithExifTool at h
  cases r with
  | error m => simp at h
  | ok out =>
      simp only at h
      split at h
      · simp at h
      · split at h
        · simp at h
        · rename_i hz
          simp only [Except.ok.injEq] at h
          subst h
          push_neg at hz
          exact ⟨hz.1, hz.2⟩

/-- Helper: a successful OpenSlide dimension extraction never carries a zero
width or height. -/
theorem openSlide_ok_nonzero (p : String) (s : Int) (r : Except String String)
    (info : ImageInfo) (h : getDimensionsWithOpenSlide p s r = .ok info) :
    info.width ≠ 0 ∧ info.height ≠ 0 := by
  unfold getDimensionsWithOpenSlide at h
  cases r with
  | error m => simp at h
  | ok out =>
      simp only at h
      split at h
      · simp at h
      · rename_i hz
        simp only [Except.ok.injEq] at h
        subst h
        push_neg at hz
        exact ⟨hz.1, hz.2⟩

/-- Helper: a successful vipsheader dimension extraction never carries a
zero width or height. -/
theorem vipsHeader_ok_nonzero (p : String) (s : Int) (rw rh : Except String String)
    (info : ImageInfo) (h : getDimensionsWithVips p s rw rh = .ok info) :
    info.width ≠ 0 ∧ info.height ≠ 0 := by
  unfold getDimensionsWithVips at h
  cases rw with
  | error m => simp at h
  | ok wOut =>
      cases rh with
      | error m => simp at h
      | ok hOut =>
          simp only at h
          split at h
          · simp at h
          · rename_i hz
            simp only [Except.ok.injEq] at h
            subst h
            push_neg at hz
            exact ⟨hz.1, hz.2⟩

/-- Helper: a successful buildEntries run produces entries whose names and
offsets are exactly the member names and member data offsets in file
order. -/
theorem buildEntries_ok_shape (ms : List ZipMember) (es : List ZipEntryIndex)
    (h : buildEntries ms = .ok es) :
    es.map ZipEntryIndex.name = ms.map ZipMember.name ∧
    es.map ZipEntryIndex.offset = ms.map dataOffsetVal := by
  induction ms generalizing es with
  | nil => simp [buildEntries] at h; subst h; simp
  | cons m rest ih =>
      unfold buildEntries at h
      split at h
      · simp at h
      · cases hr : buildEntries rest with
        | error e => rw [hr] at h; simp at h
        | ok es2 =>
            rw [hr] at h
            simp only [Except.ok.injEq] at h
            subst h
            obtain ⟨h1, h2⟩ := ih es2 hr
            simp [h1, h2]

/-- Helper: when some member's data offset is unavailable, the member loop
fails with a Processing error. -/
theorem buildEntries_member_fails (ms : List ZipMember) (m : ZipMember)
    (hm : m ∈ ms) (hf : m.dataOffsetFails = true) :
    ∃ e, buildEntries ms = .error e ∧ kindOf e = some ErrorTypeProcessing := by
  induction ms with
  | nil => cases hm
  | cons hd rest ih =>
      by_cases hhd : hd.dataOffsetFails
      · refine ⟨withCtx (wrapErr (.generic "zip: data offset unavailable" none)
            ErrorTypeProcessing "failed to get data offset") "file" hd.name, ?_, rfl⟩
        simp [buildEntries, hhd]
      · rcases List.mem_cons.mp hm with hEq | hMem
        · subst hEq; exact absurd hf (by simp_all)
        · obtain ⟨e, he, hk⟩ := ih hMem
          refine ⟨e, ?_, hk⟩
          simp [buildEntries, hhd, he]

/-! ## Claim theorems -/

/-- Claim C1, counterexample: IsNonRetryable answers false on a Cancellation
AppError (the one the CommandRunner builds on a cancelled context), although
Cancellation is not among Storage, Messaging, External, Timeout — so the
claim that false is returned exactly for those four kinds fails. -/
theorem isNonRetryable_cancellation_counterexample :
    IsNonRetryable (GoError.app ErrorTypeCancellation "command execution canceled" none [])
        = false
    ∧ ErrorTypeCancellation ≠ ErrorTypeStorage
    ∧ ErrorTypeCancellation ≠ ErrorTypeMessaging
    ∧ ErrorTypeCancellation ≠ ErrorTypeExternal
    ∧ ErrorTypeCancellation ≠ ErrorTypeTimeout := by
  refine ⟨rfl, ?_, ?_, ?_, ?_⟩ <;> decide

/-- Claim C1, as amended: IsNonRetryable on an AppError is a pure function
of its kind, independent of message, wrapped cause and context; it answers
true exactly when the kind is one of Validation, NotFound, AlreadyExists,
Processing, Configuration, Internal, and false for every other kind —
including the four infrastructure kinds and also Cancellation or any
unrecognised kind string. -/
theorem isNonRetryable_pure_function_of_kind :
    ∀ (ty : ErrorType) (msg : String) (cause : Option GoError)
      (ctx : List (String × String)),
      IsNonRetryable (GoError.app ty msg cause ctx) = specNonRetryableKind ty := by
  intro ty msg c ctx
  simp only [IsNonRetryable, findAppError, specNonRetryableKind]
  split
  · simp_all
  · split <;> simp_all

/-- Claim C2: evaluating the code at the failing input — an external tool
killed with exit code 137 during tiling — categorizeCommandError wraps the
run error as a Processing error, which IsNonRetryable marks non-retryable,
so the part_020 orchestrator publishes the Failed event with
retryable=false, contradicting the claimed (and commented) retryable
classification. -/
theorem exit137_kill_produces_nonretryable_failed_event :
    let res : CommandResult := ⟨"", "", 137⟩
    let cmdErr := categorizeCommandError "vips" res (.generic "signal: killed" none)
    let dziErr := createDZIWrapError "/tmp/ws/slide.svs" "/tmp/ws/image" 256 "dz" cmdErr
    kindOf cmdErr = some ErrorTypeProcessing ∧
    IsNonRetryable cmdErr = true ∧
    (ProcessJob_v020 ⟨"img-1", "slide.svs", "v1"⟩
        { newFile := .ok (), processFile := .error dziErr, prepareContents := .ok (),
          upload := none, removeWorkspaceOk := true, envIsProduction := true }).1.map
      (fun ev => (ev.success, ev.retryable)) = [(false, false)] := by
  exact ⟨rfl, rfl, rfl⟩

/-- Claim C3: evaluating the code at the failing input — a Timeout error
produced by the CommandRunner deadline during DZI generation — the vips
processor's Wrap call re-types it to Processing: the observed kind after
wrapping is Processing, not Timeout, and the error flips from retryable to
non-retryable, contradicting the claimed kind preservation. -/
theorem wrap_retypes_timeout_to_processing :
    kindOf ((handleCommandResult "vips" .deadlineExceeded ⟨"", "killed", -1⟩
        (some (.generic "signal: killed" none)) 30).2.getD (.generic "" none))
      = some ErrorTypeTimeout ∧
    IsNonRetryable ((handleCommandResult "vips" .deadlineExceeded ⟨"", "killed", -1⟩
        (some (.generic "signal: killed" none)) 30).2.getD (.generic "" none))
      = false ∧
    kindOf (createDZIWrapError "/tmp/ws/slide.svs" "/tmp/ws/image" 256 "dz"
        ((handleCommandResult "vips" .deadlineExceeded ⟨"", "killed", -1⟩
          (some (.generic "signal: killed" none)) 30).2.getD (.generic "" none)))
      = some ErrorTypeProcessing ∧
    IsNonRetryable (createDZIWrapError "/tmp/ws/slide.svs" "/tmp/ws/image" 256 "dz"
        ((handleCommandResult "vips" .deadlineExceeded ⟨"", "killed", -1⟩
          (some (.generic "signal: killed" none)) 30).2.getD (.generic "" none)))
      = true := by
  exact ⟨rfl, rfl, rfl, rfl⟩

/-- Claim C4, counterexample: the part_020 orchestrator variant performs no
existence pre-check; run on a job whose input path does not exist, its
single Failed event carries retryable=true (its NewFile call fails with a
plain error, which IsNonRetryable does not recognise), not the claimed
retryable=false. -/
theorem processJob_v020_missing_input_event_retryable_true :
    (ProcessJob_v020 ⟨"img-0001", "slides/missing.svs", "v2"⟩
        { newFile := NewFile "slides/missing.svs" "" true,
          processFile := .error (withCtx (wrapErr (.generic
              "stat /input/slides/missing.svs: no such file or directory" none)
            ErrorTypeStorage "failed to stat file") "file" "slides/missing.svs"),
          prepareContents := .ok (), upload := none,
          removeWorkspaceOk := true, envIsProduction := true }).1.map
      (fun ev => (ev.success, ev.retryable)) = [(false, true)] := by
  rfl

/-- Claim C4, as amended: in the orchestrator variants that perform the
FileExists pre-check, a job whose input path does not exist publishes
exactly one Failed event with retryable=false and returns a NotFound
error. -/
theorem processJob_exists_check_missing_input_not_retryable :
    ∀ (input : JobInput) (inputPath : String) (o : OrchOracleV1),
      o.inputExists = false →
      ((ProcessJob_v1 input inputPath o).1.map (fun ev => (ev.success, ev.retryable))
          = [(false, false)]) ∧
      ∃ e, (ProcessJob_v1 input inputPath o).2 = some e
        ∧ kindOf e = some ErrorTypeNotFound := by
  intro input p o h
  simp only [ProcessJob_v1, h]
  refine ⟨rfl, ⟨_, rfl, rfl⟩⟩

/-- Claim C4 witness: a concrete missing-input run of the FileExists
variant. -/
theorem processJob_exists_check_missing_input_not_retryable_witness :
    ((ProcessJob_v1 ⟨"img-0001", "slides/missing.svs", "v1"⟩
        "/input/slides/missing.svs"
        { inputExists := false, newFile := .ok (), processFile := .ok (),
          upload := none, removeWorkspaceOk := true }).1.map
      (fun ev => (ev.success, ev.retryable)) = [(false, false)]) ∧
    ∃ e, (ProcessJob_v1 ⟨"img-0001", "slides/missing.svs", "v1"⟩
        "/input/slides/missing.svs"
        { inputExists := false, newFile := .ok (), processFile := .ok (),
          upload := none, removeWorkspaceOk := true }).2 = some e
      ∧ kindOf e = some ErrorTypeNotFound :=
  processJob_exists_check_missing_input_not_retryable
    ⟨"img-0001", "slides/missing.svs", "v1"⟩ "/input/slides/missing.svs"
    { inputExists := false, newFile := .ok (), processFile := .ok (),
      upload := none, removeWorkspaceOk := true } rfl

/-- Claim C5: every run of the part_020 JobOrchestrator.ProcessJob publishes
exactly one outcome event — on the success exit and on every error exit —
and the published event is the success event exactly when no error is
returned. -/
theorem processJob_v020_publishes_exactly_one_event :
    ∀ (input : JobInput) (o : OrchOracleV020),
      (ProcessJob_v020 input o).1.length = 1 ∧
      ((ProcessJob_v020 input o).2 = none ↔
        (ProcessJob_v020 input o).1.map (fun ev => ev.success) = [true]) := by
  intro input o
  rcases o with ⟨nf, pf, pc, up, rm, env⟩
  cases nf <;> cases pf <;> cases pc <;> cases up <;> simp [ProcessJob_v020]

/-- Claim C6, counterexample: in the part_017 ImageProcessingService
variant, a run in which only the thumbnail stage fails and every other
stage succeeds aborts with the thumbnail error instead of completing. -/
theorem processFile_v017_thumbnail_failure_aborts :
    ProcessFile_v017 "img-0001" "slide.svs" "fs"
        { newWorkspaceOk := true, getImageInfo := none, convertDNG := none,
          thumbnail := some (wrapErr (.generic "exit status 1" none)
            ErrorTypeProcessing "failed to create thumbnail"),
          dzi := none, buildIndexMap := none, extractDzi := none,
          renameTiles := none, removeTiffOk := true }
      = .error (wrapErr (.generic "exit status 1" none)
          ErrorTypeProcessing "failed to create thumbnail") := by
  rfl

/-- Claim C6, as amended: in the ImageHandlerService.processImage variant a
thumbnail failure is non-fatal — when every other step succeeds the run
still publishes the completion event and returns no error, with no
thumbnail artifact copied to the output. -/
theorem processImage_thumbnail_failure_nonfatal :
    ∀ (o : HandlerOracle) (e : GoError) (format : String),
      o.getImageInfo = .ok format → o.formatSupported = true →
      o.mkdirTempOk = true → o.dzi = none →
      o.extractThumbnail = some e →
      o.mkdirOutOk = true → o.copyDzi = none → o.copyFilesDir = none →
      o.thumbnailFileExists = false →
      o.publishCompleted = none →
      processImage o = ⟨true, false, none⟩ := by
  intro o e format h1 h2 h3 h4 h5 h6 h7 h8 h9 h10
  simp [processImage, h1, h2, h3, h4, h6, h7, h8, h9, h10]

/-- Claim C6 witness: a concrete thumbnail-failed, otherwise-successful run
of the handler pipeline. -/
theorem processImage_thumbnail_failure_nonfatal_witness :
    processImage
        { getImageInfo := .ok "svs", formatSupported := true, mkdirTempOk := true,
          dzi := none,
          convertDNGForThumb := none,
          extractThumbnail := some (wrapErr (.generic "exit status 1" none)
            ErrorTypeProcessing "failed to create thumbnail"),
          mkdirOutOk := true, copyDzi := none, copyFilesDir := none,
          thumbnailFileExists := false, copyThumbnail := none,
          publishCompleted := none }
      = ⟨true, false, none⟩ :=
  processImage_thumbnail_failure_nonfatal _
    (wrapErr (.generic "exit status 1" none)
      ErrorTypeProcessing "failed to create thumbnail") "svs"
    rfl rfl rfl rfl rfl rfl rfl rfl rfl rfl

/-- Claim C7, counterexample: on a vipsheader run whose stdout is the text
-1, Sscanf parses a negative width that passes the zero-only guard, so
GetImageInfo returns success with a width that is not strictly positive. -/
theorem getImageInfo_accepts_negative_width :
    GetImageInfo "slide.png"
        { statSize := .ok 100, exifRun := .ok "", openslideRun := .ok "",
          vipsWidthRun := .ok "-1", vipsHeightRun := .ok "5" }
      = .ok ⟨-1, 5, 100⟩ ∧ ¬ (0 < (-1 : Int)) := by
  exact ⟨rfl, by decide⟩

/-- Claim C7, as amended: whenever the inspection stage returns success, the
returned width and height are nonzero — a zero dimension is always rejected
with an error, though a negative parsed dimension is accepted. -/
theorem getImageInfo_ok_dimensions_nonzero :
    ∀ (path : String) (o : InfoOracle) (info : ImageInfo),
      GetImageInfo path o = .ok info → info.width ≠ 0 ∧ info.height ≠ 0 := by
  intro path o info h
  unfold GetImageInfo at h
  cases hs : o.statSize with
  | error m => rw [hs] at h; simp at h
  | ok size =>
      rw [hs] at h
      simp only at h
      split at h
      · exact exifTool_ok_nonzero _ _ _ _ h
      · split at h
        · exact openSlide_ok_nonzero _ _ _ _ h
        · exact vipsHeader_ok_nonzero _ _ _ _ _ h

/-- Claim C7 witness: a concrete successful inspection with nonzero
dimensions. -/
theorem getImageInfo_ok_dimensions_nonzero_witness :
    GetImageInfo "slide.png"
        { statSize := .ok 100, exifRun := .ok "", openslideRun := .ok "",
          vipsWidthRun := .ok "1024", vipsHeightRun := .ok "768" }
      = .ok ⟨1024, 768, 100⟩ ∧
    ((1024 : Int) ≠ 0 ∧ (768 : Int) ≠ 0) :=
  ⟨by rfl, getImageInfo_ok_dimensions_nonzero "slide.png"
      { statSize := .ok 100, exifRun := .ok "", openslideRun := .ok "",
        vipsWidthRun := .ok "1024", vipsHeightRun := .ok "768" }
      ⟨1024, 768, 100⟩ (by rfl)⟩

/-- Claim C8, counterexample: MountStorage.PutDirectory on an empty source
directory succeeds with zero copies instead of failing with a Storage
error — the walk only creates the destination directory. -/
theorem putDirectory_mount_empty_dir_succeeds :
    PutDirectory_mount (.dir "workspace" []) (fun _ => none) = ([], none) := by
  rfl

/-- Claim C8, as amended: the SDK-based GCS backend fails an empty-source
upload with a Storage error before attempting any transfer, while the
mount-based backend completes an empty-source PutDirectory successfully
with zero copies. -/
theorem uploadDirectory_empty_source_by_backend :
    (∀ (sourceDir : String) (tree : FsEntry) (attempt : String → Option GoError),
       collectFiles tree = [] →
       ∃ e, UploadDirectory_gcs sourceDir tree attempt = ([], some e)
         ∧ kindOf e = some ErrorTypeStorage) ∧
    (∀ (dirName : String) (copyFails : String → Option String),
       PutDirectory_mount (.dir dirName []) copyFails = ([], none)) := by
  constructor
  · intro s t a h
    refine ⟨withCtx (NewStorageError "source directory is empty") "sourceDir" s, ?_, rfl⟩
    simp [UploadDirectory_gcs, h]
  · intro d f
    rfl

/-- Claim C8 witness: concrete empty-directory runs against both backends. -/
theorem uploadDirectory_empty_source_by_backend_witness :
    (∃ e, UploadDirectory_gcs "/tmp/ws" (.dir "ws" []) (fun _ => none) = ([], some e)
      ∧ kindOf e = some ErrorTypeStorage) ∧
    PutDirectory_mount (.dir "out" []) (fun _ => none) = ([], none) :=
  ⟨uploadDirectory_empty_source_by_backend.1 "/tmp/ws" (.dir "ws" []) (fun _ => none) rfl,
   uploadDirectory_empty_source_by_backend.2 "out" (fun _ => none)⟩

/-- Claim C9: a successful BuildIndexMap writes one entry per archive member
in file order (names and count match), with strictly increasing offsets for
a sequentially laid out archive; and when any member's data offset cannot
be determined the call fails with a Processing error instead. -/
theorem buildIndexMap_entries_complete_offsets_increasing :
    (∀ (zipFileName : String) (members : List ZipMember) (o : ZipWriteOracle)
        (idx : ZipIndexMap),
      BuildIndexMap zipFileName members o = .ok idx →
      idx.entries.length = members.length ∧
      idx.entries.map ZipEntryIndex.name = members.map ZipMember.name ∧
      (SequentialLayout members →
        List.Chain' (fun a b => a < b) (idx.entries.map ZipEntryIndex.offset))) ∧
    (∀ (zipFileName : String) (members : List ZipMember) (o : ZipWriteOracle)
        (m : ZipMember),
      o.openOk = true → m ∈ members → m.dataOffsetFails = true →
      ∃ e, BuildIndexMap zipFileName members o = .error e
        ∧ kindOf e = some ErrorTypeProcessing) := by
  constructor
  · intro z ms o idx h
    unfold BuildIndexMap at h
    split at h
    · simp at h
    · cases hb : buildEntries ms with
      | error e => rw [hb] at h; simp at h
      | ok es =>
          rw [hb] at h
          split at h
          · simp at h
          · rename_i es2 heq
            injection heq with hes
            subst hes
            split at h
            · simp at h
            · split at h
              · simp at h
              · split at h
                · simp at h
                · simp only [Except.ok.injEq] at h
                  subst h
                  obtain ⟨h1, h2⟩ := buildEntries_ok_shape ms es hb
                  refine ⟨?_, h1, ?_⟩
                  · have := congrArg List.length h1
                    simpa using this
                  · intro hseq
                    show List.Chain' (fun a b => a < b) (es.map ZipEntryIndex.offset)
                    rw [h2]
                    rw [List.chain'_map]
                    unfold SequentialLayout at hseq
                    refine hseq.imp ?_
                    intro a b hab
                    unfold dataOffsetVal at hab ⊢
                    omega
  · intro z ms o m ho hm hf
    obtain ⟨e, he, hk⟩ := buildEntries_member_fails ms m hm hf
    refine ⟨e, ?_, hk⟩
    unfold BuildIndexMap
    simp [ho, he]

/-- Claim C9 witness: a concrete two-member sequential archive whose index
has both entries with increasing offsets, and a concrete archive whose only
member's offset is unavailable failing with a Processing error. -/
theorem buildIndexMap_entries_complete_offsets_increasing_witness :
    ((BuildIndexMap "image.zip"
        [⟨"0/0_0.jpg", 0, 9, 0, 10, 12, 8, false⟩,
         ⟨"image.dzi", 50, 9, 0, 5, 5, 0, false⟩]
        ⟨true, true, true, true⟩).map ZipIndexMap.entries
      = .ok [⟨"0/0_0.jpg", 39, 10, 12, 8⟩, ⟨"image.dzi", 89, 5, 5, 0⟩]) ∧
    ([(⟨"0/0_0.jpg", 39, 10, 12, 8⟩ : ZipEntryIndex),
      ⟨"image.dzi", 89, 5, 5, 0⟩].length = 2 ∧
     List.Chain' (fun a b => a < b)
       ([(⟨"0/0_0.jpg", 39, 10, 12, 8⟩ : ZipEntryIndex),
         ⟨"image.dzi", 89, 5, 5, 0⟩].map ZipEntryIndex.offset)) ∧
    (∃ e, BuildIndexMap "image.zip" [⟨"bad.jpg", 0, 7, 0, 10, 10, 8, true⟩]
        ⟨true, true, true, true⟩ = .error e
      ∧ kindOf e = some ErrorTypeProcessing) := by
  have h1 := buildIndexMap_entries_complete_offsets_increasing.1 "image.zip"
    [⟨"0/0_0.jpg", 0, 9, 0, 10, 12, 8, false⟩,
     ⟨"image.dzi", 50, 9, 0, 5, 5, 0, false⟩]
    ⟨true, true, true, true⟩
    ⟨1, "image.zip", [⟨"0/0_0.jpg", 39, 10, 12, 8⟩, ⟨"image.dzi", 89, 5, 5, 0⟩]⟩
    (by rfl)
  have hseq : SequentialLayout
      [⟨"0/0_0.jpg", 0, 9, 0, 10, 12, 8, false⟩,
       ⟨"image.dzi", 50, 9, 0, 5, 5, 0, false⟩] := by
    simp [SequentialLayout, List.chain'_cons, List.chain'_singleton, dataOffsetVal]
  refine ⟨by rfl, ⟨rfl, h1.2.2 hseq⟩, ?_⟩
  exact buildIndexMap_entries_complete_offsets_increasing.2 "image.zip"
    [⟨"bad.jpg", 0, 7, 0, 10, 10, 8, true⟩]
    ⟨true, true, true, true⟩ ⟨"bad.jpg", 0, 7, 0, 10, 10, 8, true⟩
    rfl (List.mem_singleton.mpr rfl) rfl

/-- Claim C10: on a missing input file, DcrawProcessor.DNGToTIFF returns a
nil CommandResult together with a Validation error, and the part_018
ConvertDNGToTIFF error-logging branch then dereferences the nil result, so
the call panics instead of returning the error. -/
theorem convertDNGToTIFF_v018_nil_result_panics :
    (DNGToTIFF "input/photo.dng" "/tmp/ws/photo.tiff" 5 false true
        (⟨"", "", 0⟩, none) none).1 = none ∧
    (∃ e, (DNGToTIFF "input/photo.dng" "/tmp/ws/photo.tiff" 5 false true
        (⟨"", "", 0⟩, none) none).2 = some e
      ∧ kindOf e = some ErrorTypeValidation) ∧
    ConvertDNGToTIFF_v018 "input/photo.dng" "/tmp/ws/photo.tiff" 5 false true
        (⟨"", "", 0⟩, none) none = .panics := by
  refine ⟨rfl, ⟨withCtx (NewValidationError "input file does not exist")
    "input_file" "input/photo.dng", rfl, rfl⟩, rfl⟩

end ImageProc
